import Mathlib

set_option maxHeartbeats 1000000
set_option linter.unusedVariables false

/-! Shallow embedding of the pronunciation-evaluation pipeline of this
repository: `src/python/advanced_evaluation.py` (heuristic single-recording
pipeline) and `src/python/evaluate_dtw.py` (reference-alignment pipeline).

The librosa/scipy signal-processing front ends (spectrogram, `piptrack`,
beat tracking, MFCC extraction, RMS) are not re-implemented: each analyzer's
front-end output is taken as abstract input data (rational-valued frames),
and every arithmetic step the repository performs on that data is embedded
exactly.  Python floats are modelled by real numbers; raw frame data is
rational so that frame-level selection logic stays decidable. -/

noncomputable section

/-- Mean of a list of reals, as `np.mean` (this model yields 0 on the empty
list, where numpy would produce NaN; no embedded claim depends on that case). -/
def npMean (l : List ℝ) : ℝ := l.sum / l.length

/-- Population variance, as numpy's default `np.var`. -/
def npVariance (l : List ℝ) : ℝ :=
  ((l.map (fun x => (x - npMean l) ^ 2)).sum) / l.length

/-- Population standard deviation, as `np.std`. -/
def npStd (l : List ℝ) : ℝ := Real.sqrt (npVariance l)

/-- Consecutive differences, as `np.diff`. -/
def npDiff (l : List ℝ) : List ℝ := List.zipWith (fun a b => b - a) l l.tail

/-- Result dict of `extract_formants`. -/
structure FormantSummary where
  f1_mean : ℝ
  f2_mean : ℝ
  f3_mean : ℝ
  formant_stability : ℝ
  score : ℝ

/-- Result dict of `extract_pitch_contour`. -/
structure PitchSummary where
  mean_pitch : ℝ
  pitch_std : ℝ
  pitch_range : ℝ
  pitch_smoothness : ℝ
  score : ℝ

/-- Result dict of `analyze_rhythm`. -/
structure RhythmSummary where
  tempo : ℝ
  beat_count : ℕ
  onset_count : ℕ
  rhythm_consistency : ℝ
  stress_pattern : String
  score : ℝ

/-- Result dict of `detect_phoneme_boundaries`. -/
structure PhonemeSummary where
  boundary_count : ℕ
  boundary_quality : ℝ
  change_intensity : ℝ
  score : ℝ

/-- Result dict of `detect_katakana_pronunciation`. -/
structure KatakanaResult where
  detected : Bool
  confidence : ℝ
  indicators : List String
  score : ℝ

/-! ## Pitch Analyzer (`extract_pitch_contour`, lines 129-169) -/

/-- One time frame of `librosa.piptrack` output: the per-bin
(pitch, magnitude) candidate pairs of that spectrogram column. -/
abbrev PitchFrame := List (ℚ × ℚ)

/-- The pitch the source selects from one frame:
`index = magnitudes[:, t].argmax(); pitch = pitches[index, t]`.
numpy's `argmax` keeps the first maximal entry, hence the strict comparison. -/
def selectedPitch (fr : PitchFrame) : ℚ :=
  (fr.foldl (fun best c => if best.2 < c.2 then c else best) (fr.headD (0, 0))).1

/-- The `valid_pitches` list: per frame, the pitch at the magnitude argmax,
kept only when strictly positive (lines 137-142). -/
def validPitches (frames : List PitchFrame) : List ℚ :=
  frames.filterMap (fun fr =>
    let p := selectedPitch fr
    if 0 < p then some p else none)

/-- `calculate_pitch_smoothness` (lines 394-402): 0 for fewer than two
pitches, otherwise `1 / (1 + np.std(np.diff(pitches)))`. -/
def calculate_pitch_smoothness (pitches : List ℝ) : ℝ :=
  if pitches.length < 2 then 0
  else 1 / (1 + npStd (npDiff pitches))

/-- `calculate_pitch_score` (lines 350-368). -/
def calculate_pitch_score (mean_pitch pitch_std smoothness : ℝ) : ℝ :=
  let s1 : ℝ :=
    if 80 ≤ mean_pitch ∧ mean_pitch ≤ 600 then 0.5
    else if 60 ≤ mean_pitch ∧ mean_pitch ≤ 700 then 0.3
    else 0
  let s2 : ℝ :=
    if 10 ≤ pitch_std ∧ pitch_std ≤ 200 then 0.3
    else if 5 ≤ pitch_std ∧ pitch_std ≤ 300 then 0.2
    else 0
  min (s1 + s2 + smoothness * 0.2) 1

/-- `extract_pitch_contour` (lines 129-169): statistics over the valid
pitches, or the all-zero summary when no valid frame exists. -/
def extract_pitch_contour (frames : List PitchFrame) : PitchSummary :=
  let vp := validPitches frames
  if vp = [] then ⟨0, 0, 0, 0, 0⟩
  else
    let vpr : List ℝ := vp.map (fun q => (q : ℝ))
    let m := npMean vpr
    let s := npStd vpr
    let rng : ℝ := ((vp.maximum.unbot' 0 : ℚ) : ℝ) - ((vp.minimum.untop' 0 : ℚ) : ℝ)
    let sm := calculate_pitch_smoothness vpr
    ⟨m, s, rng, sm, calculate_pitch_score m s sm⟩

/-! ## Formant Analyzer (`extract_formants`, lines 81-127, and
`calculate_formant_score`, lines 323-348) -/

/-- `calculate_formant_score` as written in the source always raises: the
loop header unpacks each 4-tuple of `english_vowel_ranges` into four scalar
ints (`f1_range, f2_range, f3_range, _`), and the body then subscripts the
scalar (`f1_range[0]`), a `TypeError` on the first iteration of a non-empty
list.  The embedding therefore returns that error unconditionally. -/
def calculate_formant_score (f1 f2 f3 : ℝ) : Except String ℝ :=
  .error "TypeError: int object is not subscriptable"

/-- The default summary returned when no formant estimate is produced or the
internal computation raises (lines 120-127), with default sub-score 0.6. -/
def formantDefault : FormantSummary :=
  { f1_mean := 0, f2_mean := 0, f3_mean := 0, formant_stability := 0, score := 0.6 }

/-- `extract_formants` (lines 81-127).  Input: outcome of the spectral stage
(every fifth spectrogram column's detected peak list, as produced by
lines 87-101), or the exception it raised.  Frames with at least two peaks
contribute their first two peaks (`peaks[:2]`).  All exceptions inside the
function body, including the unconditional `TypeError` of
`calculate_formant_score`, are caught internally and fall through to
`formantDefault`. -/
def extract_formants (formantData : Except String (List (List ℚ))) : FormantSummary :=
  match formantData with
  | .error _ => formantDefault
  | .ok frames =>
    let formant_freqs := frames.filterMap
      (fun peaks => if 2 ≤ peaks.length then some (peaks.take 2) else none)
    if formant_freqs = [] then formantDefault
    else
      let f1 := npMean (formant_freqs.map (fun r => ((r.headD 0 : ℚ) : ℝ)))
      let f2 := npMean (formant_freqs.map (fun r => ((r.getD 1 0 : ℚ) : ℝ)))
      let stab := npStd (formant_freqs.flatten.map (fun q => ((q : ℚ) : ℝ)))
      match calculate_formant_score f1 f2 0 with
      | .ok s =>
        { f1_mean := f1, f2_mean := f2, f3_mean := 0,
          formant_stability := stab, score := s }
      | .error _ => formantDefault

/-! ## Rhythm Analyzer (`analyze_rhythm`, lines 171-199;
`analyze_stress_pattern`, lines 404-415; `calculate_rhythm_score`,
lines 370-385) -/

/-- Front-end data of `analyze_rhythm`: the beat-tracker tempo and beat
frames, the onset timestamps, and the RMS envelope frames used by the
stress-pattern analysis. -/
structure RhythmData where
  tempo : ℚ
  beats : List ℚ
  onset_times : List ℚ
  rms : List ℚ

/-- `analyze_stress_pattern` (lines 404-415): "natural" when
`scipy.signal.find_peaks(rms, height=mean*1.2)` finds at least one peak,
else "flat".  A peak is modelled as an interior strict local maximum whose
value reaches the height bound `1.2 * mean(rms)`. -/
def analyze_stress_pattern (rms : List ℚ) : String :=
  let m : ℚ := if rms.length = 0 then 0 else rms.sum / rms.length
  let peaks := (List.range rms.length).filter (fun i =>
    decide (0 < i) && decide (i + 1 < rms.length) &&
    decide (rms.getD (i - 1) 0 < rms.getD i 0) &&
    decide (rms.getD (i + 1) 0 < rms.getD i 0) &&
    decide ((6 / 5) * m ≤ rms.getD i 0))
  if 0 < peaks.length then "natural" else "flat"

/-- `calculate_rhythm_score` (lines 370-385). -/
def calculate_rhythm_score (tempo consistency : ℝ) (stress_pattern : String) : ℝ :=
  let tempo_score : ℝ :=
    if 40 ≤ tempo ∧ tempo ≤ 200 then 0.5
    else if 30 ≤ tempo ∧ tempo ≤ 250 then 0.3
    else 0
  let rhythm_score := consistency * 0.3
  let stress_score : ℝ := if stress_pattern = "natural" then 0.2 else 0.1
  min (tempo_score + rhythm_score + stress_score) 1

/-- `analyze_rhythm` (lines 171-199): consistency is
`1 / (1 + np.std(np.diff(onset_times)))` when more than one onset exists,
else 0. -/
def analyze_rhythm (d : RhythmData) : RhythmSummary :=
  let onsets : List ℝ := d.onset_times.map (fun q => (q : ℝ))
  let rhythm_consistency : ℝ :=
    if 1 < d.onset_times.length then 1 / (1 + npStd (npDiff onsets)) else 0
  let stress_pattern := analyze_stress_pattern d.rms
  { tempo := (d.tempo : ℝ)
    beat_count := d.beats.length
    onset_count := d.onset_times.length
    rhythm_consistency := rhythm_consistency
    stress_pattern := stress_pattern
    score := calculate_rhythm_score (d.tempo : ℝ) rhythm_consistency stress_pattern }

/-! ## Segmental Boundary Analyzer (`detect_phoneme_boundaries`,
lines 201-224; `calculate_boundary_score`, lines 387-392) -/

/-- The `change_points` signal (lines 208-210): per MFCC frame transition,
the per-coefficient absolute differences summed over the 13 coefficients. -/
def change_points (mfcc : List (Fin 13 → ℚ)) : List ℚ :=
  List.zipWith (fun a b => ∑ i, |b i - a i|) mfcc mfcc.tail

/-- `calculate_boundary_score` (lines 387-392). -/
def calculate_boundary_score (quality : ℝ) (count : ℕ) : ℝ :=
  if 0 < count then min (quality * 0.6 + ((count : ℝ) / 15) * 0.4) 1
  else 0.5

/-- `detect_phoneme_boundaries` (lines 201-224): boundaries are the
transitions whose change intensity exceeds `mean + std` of all transitions;
quality is the boundary fraction (0 when there are no transitions). -/
def detect_phoneme_boundaries (mfcc : List (Fin 13 → ℚ)) : PhonemeSummary :=
  let cps := change_points mfcc
  let cpr : List ℝ := cps.map (fun q => (q : ℝ))
  let threshold : ℝ := npMean cpr + npStd cpr
  let boundaries := cpr.filter (fun c => threshold < c)
  let boundary_quality : ℝ :=
    if 0 < cps.length then (boundaries.length : ℝ) / (cps.length : ℝ) else 0
  { boundary_count := boundaries.length
    boundary_quality := boundary_quality
    change_intensity := npMean cpr
    score := calculate_boundary_score boundary_quality boundaries.length }

/-! ## Non-Native Articulation Detector (`detect_katakana_pronunciation`,
lines 226-264).  In the source the function takes the waveform and
recomputes the formant, pitch and rhythm summaries via the analyzers above;
here the caller (`analyze_body` below) passes exactly those recomputed
summaries in. -/

/-- `detect_katakana_pronunciation` rule stage (lines 241-264). -/
def detect_katakana_pronunciation (formants : FormantSummary)
    (pitch_data : PitchSummary) (rhythm_data : RhythmSummary) : KatakanaResult :=
  let katakana_indicators : List String :=
    (if pitch_data.pitch_range < 50 then ["monotone_pitch"] else []) ++
    (if 100 < formants.formant_stability then ["unstable_formants"] else []) ++
    (if rhythm_data.rhythm_consistency < 0.3 then ["unnatural_rhythm"] else [])
  let katakana_score : ℝ := (katakana_indicators.length : ℝ) / 3
  { detected := if 0.5 < katakana_score then true else false
    confidence := katakana_score
    indicators := katakana_indicators
    score := 1 - katakana_score }

/-! ## Scoring Engine (`calculate_overall_score`, lines 266-321) -/

/-- The summed adjustment list of `calculate_overall_score`
(lines 275-317): pitch, rhythm, phoneme, katakana and energy terms. -/
def total_adjustment (formants : FormantSummary) (pitch : PitchSummary)
    (rhythm : RhythmSummary) (phoneme : PhonemeSummary)
    (katakana : KatakanaResult) (energy : ℝ) : ℝ :=
  (if 0.7 < pitch.score then (10 : ℝ) else if 0.5 < pitch.score then 5 else -5) +
  (if 0.8 < rhythm.score then (10 : ℝ) else if 0.6 < rhythm.score then 5 else -5) +
  (if 0.5 < phoneme.score then (5 : ℝ) else -3) +
  (if katakana.detected then (-20 : ℝ) else 10) +
  (if 0.1 < energy then (5 : ℝ) else if 0.05 < energy then 0 else -5)

/-- `calculate_overall_score` (lines 266-321): base 75 plus the summed
adjustments, clipped to [0, 100] by `np.clip`. -/
def calculate_overall_score (formants : FormantSummary) (pitch : PitchSummary)
    (rhythm : RhythmSummary) (phoneme : PhonemeSummary)
    (katakana : KatakanaResult) (energy : ℝ) : ℝ :=
  min (max (75 + total_adjustment formants pitch rhythm phoneme katakana energy) 0) 100

/-! ## Feedback (`generate_detailed_feedback`, lines 417-441) -/

def vowelFeedbackMsg : String := "母音の発音をより正確にしてください"
def pitchFeedbackMsg : String := "イントネーションをより自然にしてください"
def rhythmFeedbackMsg : String := "リズムをより自然にしてください"
def katakanaFeedbackMsg : String := "カタカナ発音を避け、ネイティブ発音を心がけてください"
def praiseFeedbackMsg : String := "素晴らしい発音です！"

/-- `generate_detailed_feedback` (lines 417-441).  The phoneme summary is
accepted but never consulted, exactly as in the source. -/
def generate_detailed_feedback (formants : FormantSummary) (pitch : PitchSummary)
    (rhythm : RhythmSummary) (phoneme : PhonemeSummary)
    (katakana : KatakanaResult) : List String :=
  let feedback : List String :=
    (if formants.score < 0.5 then [vowelFeedbackMsg] else []) ++
    (if pitch.score < 0.5 then [pitchFeedbackMsg] else []) ++
    (if rhythm.score < 0.5 then [rhythmFeedbackMsg] else []) ++
    (if katakana.detected then [katakanaFeedbackMsg] else [])
  if feedback = [] then [praiseFeedbackMsg] else feedback

/-! ## Pipeline orchestration (`analyze_pronunciation`, lines 10-79) -/

/-- Basic statistics computed right after a successful load (lines 16-20). -/
structure LoadedAudio where
  energy : ℝ
  duration : ℝ

/-- The full success payload (lines 59-73). -/
structure Assessment where
  overallScore : ℝ
  formantAnalysis : FormantSummary
  pitchAnalysis : PitchSummary
  rhythmAnalysis : RhythmSummary
  phonemeAnalysis : PhonemeSummary
  katakanaDetection : KatakanaResult
  energyLevel : ℝ
  duration : ℝ
  detailedFeedback : List String

/-- The two JSON shapes the pipeline can return: `success: true` with the
assessment fields, or `success: false` with an error string (lines 59-79). -/
inductive AnalysisResponse where
  | ok : Assessment → AnalysisResponse
  | fail : String → AnalysisResponse

/-- The `success` field of the returned JSON object. -/
def AnalysisResponse.success : AnalysisResponse → Bool
  | .ok _ => true
  | .fail _ => false

/-- Fallback dict substituted when the pitch analyzer raises (line 33). -/
def pitchFallback : PitchSummary := ⟨0, 0, 0, 0, 0⟩

/-- Fallback dict substituted when the rhythm analyzer raises (line 39). -/
def rhythmFallback : RhythmSummary := ⟨0, 0, 0, 0, "flat", 0⟩

/-- Fallback dict substituted when the phoneme analyzer raises (line 45). -/
def phonemeFallback : PhonemeSummary := ⟨0, 0, 0, 0⟩

/-- Fallback dict substituted when the katakana detector raises (line 51). -/
def katakanaFallback : KatakanaResult := ⟨false, 0, [], 0⟩

/-- The body of `analyze_pronunciation` after a successful load
(lines 18-73).  Each analyzer's front-end outcome is an `Except`: an error
value models the analyzer call raising, which the per-analyzer handlers of
lines 22-51 turn into the documented fallback dicts.  `extract_formants`
catches internally, so its slot never reaches the outer handler of
lines 25-27.  `detect_katakana_pronunciation` recomputes the formant, pitch
and rhythm summaries from the same waveform (lines 231-252), so it raises
exactly when the pitch or rhythm front end raises, and otherwise consumes
the same summaries as the outer calls. -/
def analyze_body (la : LoadedAudio)
    (formantData : Except String (List (List ℚ)))
    (pitchData : Except String (List PitchFrame))
    (rhythmData : Except String RhythmData)
    (mfccData : Except String (List (Fin 13 → ℚ))) : Assessment :=
  let formants := extract_formants formantData
  let pitch := match pitchData with
    | .ok d => extract_pitch_contour d
    | .error _ => pitchFallback
  let rhythm := match rhythmData with
    | .ok d => analyze_rhythm d
    | .error _ => rhythmFallback
  let phoneme := match mfccData with
    | .ok d => detect_phoneme_boundaries d
    | .error _ => phonemeFallback
  let katakana := match pitchData, rhythmData with
    | .ok pd, .ok rd =>
      detect_katakana_pronunciation (extract_formants formantData)
        (extract_pitch_contour pd) (analyze_rhythm rd)
    | _, _ => katakanaFallback
  { overallScore := calculate_overall_score formants pitch rhythm phoneme katakana la.energy
    formantAnalysis := formants
    pitchAnalysis := pitch
    rhythmAnalysis := rhythm
    phonemeAnalysis := phoneme
    katakanaDetection := katakana
    energyLevel := la.energy
    duration := la.duration
    detailedFeedback := generate_detailed_feedback formants pitch rhythm phoneme katakana }

/-- `analyze_pronunciation` (lines 10-79): a load failure is the only path
to the `success: false` shape (lines 75-79). -/
def analyze_pronunciation (load : Except String LoadedAudio)
    (formantData : Except String (List (List ℚ)))
    (pitchData : Except String (List PitchFrame))
    (rhythmData : Except String RhythmData)
    (mfccData : Except String (List (Fin 13 → ℚ))) : AnalysisResponse :=
  match load with
  | .ok la => .ok (analyze_body la formantData pitchData rhythmData mfccData)
  | .error e => .fail e

/-! ## Reference Aligner (`evaluate_dtw.py`, lines 7-54)

The aligner extracts a 13-coefficient MFCC sequence per recording and runs
`dtw.dtw` on the transposed matrices.  The dtw package's default step
pattern is `symmetric2` (diagonal step weighted 2, horizontal/vertical
weighted 1) with the default Euclidean local distance; the embedding builds
the cumulative cost matrix of that recursion over frame sequences given as
functions from frame index to coefficient vector. -/

/-- Euclidean local distance between two 13-dimensional MFCC frames. -/
def euclid (a b : Fin 13 → ℝ) : ℝ := Real.sqrt (∑ i, (a i - b i) ^ 2)

/-- Cumulative DTW cost matrix for the `symmetric2` step pattern:
first row/column accumulate along the edge, interior cells take the
minimum of the diagonal step (local distance weighted twice) and the two
edge steps. -/
def dtwCum (x y : ℕ → Fin 13 → ℝ) : ℕ → ℕ → ℝ
  | 0, 0 => euclid (x 0) (y 0)
  | i + 1, 0 => dtwCum x y i 0 + euclid (x (i + 1)) (y 0)
  | 0, j + 1 => dtwCum x y 0 j + euclid (x 0) (y (j + 1))
  | i + 1, j + 1 =>
    min (dtwCum x y i j + 2 * euclid (x (i + 1)) (y (j + 1)))
      (min (dtwCum x y i (j + 1) + euclid (x (i + 1)) (y (j + 1)))
        (dtwCum x y (i + 1) j + euclid (x (i + 1)) (y (j + 1))))

/-- `alignment.distance` for an `n`-frame candidate and `m`-frame
reference. -/
def dtw_distance (x y : ℕ → Fin 13 → ℝ) (n m : ℕ) : ℝ :=
  dtwCum x y (n - 1) (m - 1)

/-- Python's `round(s, 2)` on an exact value: round to an integer number of
hundredths.  (Python uses banker's rounding at exact half-way points;
Mathlib's `round` rounds those up.  The embedded theorems only evaluate it
away from half-way points, where the two agree.) -/
def round2 (s : ℝ) : ℝ := ((round (s * 100) : ℤ) : ℝ) / 100

/-- The decay constant `k = 0.000025` of line 37. -/
def dtwDecayK : ℝ := 25 / 1000000

/-- The success payload of `evaluate_dtw.analyze_pronunciation`
(lines 41-47). -/
structure DtwResult where
  dtwDistance : ℝ
  dtwScore : ℝ
  userFrames : ℕ
  refFrames : ℕ

/-- `evaluate_dtw.analyze_pronunciation` on successfully extracted MFCC
sequences (lines 26-47): DTW distance plus the similarity score
`round(100 * exp(-k * distance), 2)`. -/
def dtw_analyze (x y : ℕ → Fin 13 → ℝ) (n m : ℕ) : DtwResult :=
  let d := dtw_distance x y n m
  { dtwDistance := d
    dtwScore := round2 (100 * Real.exp (-dtwDecayK * d))
    userFrames := n
    refFrames := m }

/-! ## Command-line entry points (`advanced_evaluation.py` lines 443-452,
`evaluate_dtw.py` lines 56-65) -/

/-- What one process invocation emits: the lines printed to standard output
and standard error, and the exit code. -/
structure CliOutcome where
  stdout : List String
  stderr : List String
  exitCode : ℕ

/-- The error JSON printed by `advanced_evaluation.py` on a wrong argument
count (line 445): `json.dumps` of a dict with the single key `error`. -/
def advancedUsageErrorJson : String :=
  "\x7b\"error\": \"Usage: python advanced_evaluation.py <audio_file> <reference_text>\"\x7d"

/-- `advanced_evaluation.py` `__main__` (lines 443-452): `sys.argv` (script
name included) must have exactly 3 entries, otherwise the error JSON goes to
standard output and the process exits with code 1.  On a correct invocation
the pipeline result JSON (abstracted as `resultJson`) is printed and the
process exits normally. -/
def advanced_main (resultJson : String) (argv : List String) : CliOutcome :=
  if argv.length ≠ 3 then ⟨[advancedUsageErrorJson], [], 1⟩
  else ⟨[resultJson], [], 0⟩

/-- The usage text argparse prints for `evaluate_dtw.py`. -/
def dtwUsageText : String :=
  "usage: evaluate_dtw.py [-h] user_audio_path reference_audio_path"

/-- `evaluate_dtw.py` `__main__` (lines 56-65).  Modelled from the
documented behavior of Python's `argparse`, which the script delegates
argument handling to: when the two required positional arguments are not
supplied exactly (wrong `sys.argv` length), `parse_args` prints the usage
message and an error line to standard error and calls `sys.exit(2)`;
nothing is printed to standard output.  On a correct invocation the
analysis-result JSON (abstracted as `resultJson`) is printed to standard
output. -/
def dtw_main (resultJson : String) (argv : List String) : CliOutcome :=
  if argv.length ≠ 3 then ⟨[], [dtwUsageText], 2⟩
  else ⟨[resultJson], [], 0⟩

/-! ## Spec-side definition for the detector-weight comparison -/

/-- Modelled from the spec: §4.6 assigns the three detector rules fixed
confidence increments of +0.3 (flat/monotone pitch), +0.3 (unstable
formants) and +0.4 (unnatural rhythm), summed over the triggered rules and
capped at 1.0.  This definition follows the spec's words; the source
(`detect_katakana_pronunciation`, line 257) instead divides the indicator
count by 3. -/
def spec_detector_confidence (monotone unstable arrhythmic : Bool) : ℝ :=
  min ((if monotone then (0.3 : ℝ) else 0) +
       (if unstable then (0.3 : ℝ) else 0) +
       (if arrhythmic then (0.4 : ℝ) else 0)) 1

/-! ## Theorems -/

/-- C2: for every combination of analyzer sub-scores, detection flag and
energy value, including all adjustment extremes, the overall score returned
by the Scoring Engine lies within [0, 100]. -/
theorem C2_overall_score_in_range (F : FormantSummary) (P : PitchSummary)
    (R : RhythmSummary) (Ph : PhonemeSummary) (K : KatakanaResult) (energy : ℝ) :
    0 ≤ calculate_overall_score F P R Ph K energy ∧
    calculate_overall_score F P R Ph K energy ≤ 100 := by
  unfold calculate_overall_score
  exact ⟨le_min (le_max_right _ _) (by norm_num), min_le_right _ _⟩

/-- C10: for every combination of sub-scores, detection flag and energy, the
pre-clamp overall score `75 + total adjustment` is at least 37 (worst case
adjustment is -5 - 5 - 3 - 20 - 5 = -38), so the overall score lies in
[37, 100] and the lower clamp at 0 is never the active bound. -/
theorem C10_overall_score_lower_bound (F : FormantSummary) (P : PitchSummary)
    (R : RhythmSummary) (Ph : PhonemeSummary) (K : KatakanaResult) (energy : ℝ) :
    37 ≤ 75 + total_adjustment F P R Ph K energy ∧
    calculate_overall_score F P R Ph K energy =
      min (75 + total_adjustment F P R Ph K energy) 100 ∧
    37 ≤ calculate_overall_score F P R Ph K energy ∧
    calculate_overall_score F P R Ph K energy ≤ 100 := by
  have h : 37 ≤ 75 + total_adjustment F P R Ph K energy := by
    unfold total_adjustment
    split_ifs <;> norm_num
  refine ⟨h, ?_, ?_, min_le_right _ _⟩
  · unfold calculate_overall_score
    rw [max_eq_left (by linarith)]
  · unfold calculate_overall_score
    rw [max_eq_left (by linarith)]
    exact le_min (by linarith) (by norm_num)

/-- C7 counterexample: the claim says the "unstable formants" indicator is
added exactly when the formant-stability metric is below the fixed
threshold (100).  On stability 50, which is below the threshold, the code
does not add the indicator; on stability 200, which is not below it, the
code does. -/
theorem C7_counterexample :
    ("unstable_formants" ∉
        (detect_katakana_pronunciation ⟨0, 0, 0, 50, 0⟩ ⟨0, 0, 100, 0, 0⟩
          ⟨0, 0, 0, 1, "flat", 0⟩).indicators ∧ (50 : ℝ) < 100) ∧
    ("unstable_formants" ∈
        (detect_katakana_pronunciation ⟨0, 0, 0, 200, 0⟩ ⟨0, 0, 100, 0, 0⟩
          ⟨0, 0, 0, 1, "flat", 0⟩).indicators ∧ ¬(200 : ℝ) < 100) := by
  refine ⟨⟨?_, by norm_num⟩, ⟨?_, by norm_num⟩⟩ <;>
    norm_num [detect_katakana_pronunciation]

/-- C7 (amended): the detector adds the "unstable formants" indicator
exactly when the formant-stability metric EXCEEDS the fixed threshold 100
(the spec's direction of comparison is inverted relative to the code). -/
theorem C7_unstable_formants_iff (F : FormantSummary) (P : PitchSummary)
    (R : RhythmSummary) :
    "unstable_formants" ∈ (detect_katakana_pronunciation F P R).indicators ↔
      100 < F.formant_stability := by
  by_cases h2 : 100 < F.formant_stability <;>
    by_cases h1 : P.pitch_range < 50 <;>
    by_cases h3 : R.rhythm_consistency < 0.3 <;>
    simp [detect_katakana_pronunciation, h1, h2, h3]

/-- C1 counterexample: on an input triggering only the "unnatural rhythm"
rule, the code's confidence is 1/3 while the claim's weighted sum
(+0.4 for rhythm) would be 0.4. -/
theorem C1_counterexample :
    (detect_katakana_pronunciation ⟨0, 0, 0, 0, 0⟩ ⟨0, 0, 100, 0, 0⟩
        ⟨0, 0, 0, 0, "flat", 0⟩).indicators = ["unnatural_rhythm"] ∧
    (detect_katakana_pronunciation ⟨0, 0, 0, 0, 0⟩ ⟨0, 0, 100, 0, 0⟩
        ⟨0, 0, 0, 0, "flat", 0⟩).confidence ≠
      spec_detector_confidence false false true := by
  constructor <;> norm_num [detect_katakana_pronunciation, spec_detector_confidence]

/-- C1 (amended): the detector's confidence is the number of triggered
rules divided by 3 — each rule contributes 1/3, not the spec's
0.3/0.3/0.4 weights — hence at most 1; `detected` is true iff the
confidence exceeds 0.5; and when no rule triggers, the confidence is 0 and
`detected` is false. -/
theorem C1_detector_confidence (F : FormantSummary) (P : PitchSummary)
    (R : RhythmSummary) :
    ((detect_katakana_pronunciation F P R).confidence =
      ((if P.pitch_range < 50 then (1 : ℝ) else 0) +
       (if 100 < F.formant_stability then (1 : ℝ) else 0) +
       (if R.rhythm_consistency < 0.3 then (1 : ℝ) else 0)) / 3) ∧
    (detect_katakana_pronunciation F P R).confidence ≤ 1 ∧
    ((detect_katakana_pronunciation F P R).detected = true ↔
      1 / 2 < (detect_katakana_pronunciation F P R).confidence) ∧
    (¬P.pitch_range < 50 → ¬100 < F.formant_stability →
      ¬R.rhythm_consistency < 0.3 →
      (detect_katakana_pronunciation F P R).confidence = 0 ∧
      (detect_katakana_pronunciation F P R).detected = false) := by
  by_cases h1 : P.pitch_range < 50 <;>
    by_cases h2 : 100 < F.formant_stability <;>
    by_cases h3 : R.rhythm_consistency < 0.3 <;>
    simp [detect_katakana_pronunciation, h1, h2, h3] <;>
    norm_num

/-- C1 witness: applying the amended theorem on a concrete input where no
rule triggers yields confidence 0 and a false detection flag. -/
theorem C1_witness :
    (detect_katakana_pronunciation ⟨0, 0, 0, 0, 0⟩ ⟨0, 0, 100, 0, 0⟩
        ⟨0, 0, 0, 1, "flat", 0⟩).confidence = 0 ∧
    (detect_katakana_pronunciation ⟨0, 0, 0, 0, 0⟩ ⟨0, 0, 100, 0, 0⟩
        ⟨0, 0, 0, 1, "flat", 0⟩).detected = false :=
  (C1_detector_confidence ⟨0, 0, 0, 0, 0⟩ ⟨0, 0, 100, 0, 0⟩
      ⟨0, 0, 0, 1, "flat", 0⟩).2.2.2 (by norm_num) (by norm_num) (by norm_num)

/-- C3 counterexample: when both the vowel weakness and the articulation
flag trigger, the code puts the vowel sentence first and the articulation
sentence last, while the claim requires the articulation sentence first. -/
theorem C3_counterexample :
    generate_detailed_feedback ⟨0, 0, 0, 0, 0⟩ ⟨0, 0, 0, 0, 1⟩
        ⟨0, 0, 0, 0, "flat", 1⟩ ⟨0, 0, 0, 0⟩ ⟨true, 1, [], 0⟩ =
      [vowelFeedbackMsg, katakanaFeedbackMsg] ∧
    (generate_detailed_feedback ⟨0, 0, 0, 0, 0⟩ ⟨0, 0, 0, 0, 1⟩
        ⟨0, 0, 0, 0, "flat", 1⟩ ⟨0, 0, 0, 0⟩ ⟨true, 1, [], 0⟩).head? ≠
      some katakanaFeedbackMsg := by
  have h : generate_detailed_feedback ⟨0, 0, 0, 0, 0⟩ ⟨0, 0, 0, 0, 1⟩
      ⟨0, 0, 0, 0, "flat", 1⟩ ⟨0, 0, 0, 0⟩ ⟨true, 1, [], 0⟩ =
      [vowelFeedbackMsg, katakanaFeedbackMsg] := by
    norm_num [generate_detailed_feedback]
    simp
  refine ⟨h, ?_⟩
  rw [h]
  simp [vowelFeedbackMsg, katakanaFeedbackMsg]

/-- C3 (amended): the feedback list appends exactly one sentence per
triggered weakness in the fixed order vowel (formant), pitch, rhythm,
articulation (katakana) — not articulation first, and the boundary
sub-score never contributes — and when no weakness triggers it is exactly
the single positive-affirmation message. -/
theorem C3_feedback_order (F : FormantSummary) (P : PitchSummary)
    (R : RhythmSummary) (Ph : PhonemeSummary) (K : KatakanaResult) :
    ((F.score < 0.5 ∨ P.score < 0.5 ∨ R.score < 0.5 ∨ K.detected = true) →
      generate_detailed_feedback F P R Ph K =
        (if F.score < 0.5 then [vowelFeedbackMsg] else []) ++
        (if P.score < 0.5 then [pitchFeedbackMsg] else []) ++
        (if R.score < 0.5 then [rhythmFeedbackMsg] else []) ++
        (if K.detected then [katakanaFeedbackMsg] else [])) ∧
    (¬F.score < 0.5 → ¬P.score < 0.5 → ¬R.score < 0.5 → K.detected = false →
      generate_detailed_feedback F P R Ph K = [praiseFeedbackMsg]) := by
  by_cases h1 : F.score < 0.5 <;>
    by_cases h2 : P.score < 0.5 <;>
    by_cases h3 : R.score < 0.5 <;>
    by_cases h4 : K.detected <;>
    simp [generate_detailed_feedback, h1, h2, h3, h4]

/-- C3 witness: applying the amended theorem on concrete inputs — all
sub-scores good and no detection gives the single praise message; a bad
formant score alone gives exactly the vowel sentence. -/
theorem C3_witness :
    generate_detailed_feedback ⟨0, 0, 0, 0, 1⟩ ⟨0, 0, 0, 0, 1⟩
        ⟨0, 0, 0, 0, "flat", 1⟩ ⟨0, 0, 0, 0⟩ ⟨false, 0, [], 1⟩ =
      [praiseFeedbackMsg] ∧
    generate_detailed_feedback ⟨0, 0, 0, 0, 0⟩ ⟨0, 0, 0, 0, 1⟩
        ⟨0, 0, 0, 0, "flat", 1⟩ ⟨0, 0, 0, 0⟩ ⟨false, 0, [], 1⟩ =
      [vowelFeedbackMsg] := by
  constructor
  · exact (C3_feedback_order ⟨0, 0, 0, 0, 1⟩ ⟨0, 0, 0, 0, 1⟩
      ⟨0, 0, 0, 0, "flat", 1⟩ ⟨0, 0, 0, 0⟩ ⟨false, 0, [], 1⟩).2
      (by norm_num) (by norm_num) (by norm_num) rfl
  · have := (C3_feedback_order ⟨0, 0, 0, 0, 0⟩ ⟨0, 0, 0, 0, 1⟩
      ⟨0, 0, 0, 0, "flat", 1⟩ ⟨0, 0, 0, 0⟩ ⟨false, 0, [], 1⟩).1
      (Or.inl (by norm_num))
    norm_num at this
    exact this

/-- C4: when the waveform loads successfully, any single analyzer's
internal failure is replaced by that analyzer's documented fallback summary
(for the formant analyzer, the neutral summary with default sub-score 0.6;
for the others, the literal fallback dicts of lines 33, 39, 45 and 51), the
pipeline continues, and the response still has `success: true`; only a load
failure yields `success: false`. -/
theorem C4_analyzer_fallbacks (la : LoadedAudio) (e : String)
    (fd : Except String (List (List ℚ))) (pd : Except String (List PitchFrame))
    (rd : Except String RhythmData) (md : Except String (List (Fin 13 → ℚ))) :
    (analyze_pronunciation (.ok la) fd pd rd md).success = true ∧
    (analyze_body la (.error e) pd rd md).formantAnalysis = formantDefault ∧
    formantDefault.score = 0.6 ∧
    (analyze_body la fd (.error e) rd md).pitchAnalysis = pitchFallback ∧
    (analyze_body la fd pd (.error e) md).rhythmAnalysis = rhythmFallback ∧
    (analyze_body la fd pd rd (.error e)).phonemeAnalysis = phonemeFallback ∧
    (analyze_body la fd (.error e) rd md).katakanaDetection = katakanaFallback ∧
    analyze_pronunciation (.error e) fd pd rd md = .fail e ∧
    (analyze_pronunciation (.error e) fd pd rd md).success = false := by
  refine ⟨rfl, rfl, rfl, rfl, rfl, rfl, ?_, rfl, rfl⟩
  cases pd <;> rfl

/-- C6: for every waveform whose pitch extraction yields zero valid frames,
the Pitch Analyzer returns the all-zero summary (mean, std, range,
smoothness and sub-score all 0), and the pipeline still produces a
`success: true` assessment rather than failing. -/
theorem C6_no_valid_pitch_frames (frames : List PitchFrame)
    (h : validPitches frames = []) (la : LoadedAudio)
    (fd : Except String (List (List ℚ))) (rd : Except String RhythmData)
    (md : Except String (List (Fin 13 → ℚ))) :
    extract_pitch_contour frames = ⟨0, 0, 0, 0, 0⟩ ∧
    (analyze_pronunciation (.ok la) fd (.ok frames) rd md).success = true := by
  constructor
  · simp [extract_pitch_contour, h]
  · rfl

/-- C6 witness: two frames of silence (all candidate pitches 0) yield no
valid pitch frame, the all-zero summary, and a successful assessment. -/
theorem C6_witness :
    validPitches [[((0 : ℚ), (1 : ℚ))], [(0, 5)]] = [] ∧
    extract_pitch_contour [[((0 : ℚ), (1 : ℚ))], [(0, 5)]] = ⟨0, 0, 0, 0, 0⟩ ∧
    (analyze_pronunciation (.ok ⟨0, 2⟩) (.ok [])
      (.ok [[((0 : ℚ), (1 : ℚ))], [(0, 5)]])
      (.ok ⟨0, [], [], []⟩) (.ok [])).success = true := by
  have h : validPitches [[((0 : ℚ), (1 : ℚ))], [(0, 5)]] = [] := by decide
  exact ⟨h,
    (C6_no_valid_pitch_frames _ h ⟨0, 2⟩ (.ok []) (.ok ⟨0, [], [], []⟩) (.ok [])).1,
    (C6_no_valid_pitch_frames _ h ⟨0, 2⟩ (.ok []) (.ok ⟨0, [], [], []⟩) (.ok [])).2⟩

/-- C8: the Segmental Boundary Analyzer's sub-score equals
`min(0.6 * boundary_quality + 0.4 * (boundary_count / 15), 1.0)` when at
least one boundary exists, and when there are zero transitions (an empty
change-point sequence) it reports the moderate default 0.5 rather than
zero. -/
theorem C8_boundary_score (mfcc : List (Fin 13 → ℚ)) :
    ((detect_phoneme_boundaries mfcc).score =
      if 0 < (detect_phoneme_boundaries mfcc).boundary_count then
        min ((detect_phoneme_boundaries mfcc).boundary_quality * 0.6 +
          (((detect_phoneme_boundaries mfcc).boundary_count : ℝ) / 15) * 0.4) 1
      else 0.5) ∧
    (change_points mfcc = [] →
      (detect_phoneme_boundaries mfcc).boundary_count = 0 ∧
      (detect_phoneme_boundaries mfcc).score = 0.5) := by
  constructor
  · simp only [detect_phoneme_boundaries, calculate_boundary_score]
  · intro h
    simp [detect_phoneme_boundaries, calculate_boundary_score, h]

/-- C8 witness: a waveform with a single MFCC frame has zero transitions,
zero boundaries, and the default sub-score 0.5. -/
theorem C8_witness :
    change_points [(fun _ => (0 : ℚ) : Fin 13 → ℚ)] = [] ∧
    (detect_phoneme_boundaries [(fun _ => (0 : ℚ) : Fin 13 → ℚ)]).boundary_count = 0 ∧
    (detect_phoneme_boundaries [(fun _ => (0 : ℚ) : Fin 13 → ℚ)]).score = 0.5 :=
  ⟨rfl, (C8_boundary_score [(fun _ => (0 : ℚ) : Fin 13 → ℚ)]).2 rfl⟩

/-- C9 counterexample: invoking the alignment-mode program with the wrong
number of arguments prints nothing to standard output — in particular no
error JSON object — while exiting with code 2 and a usage message on
standard error; the claim requires an error JSON object on standard output
in both modes. -/
theorem C9_counterexample :
    (dtw_main "result" ["evaluate_dtw.py"]).stdout = [] ∧
    (dtw_main "result" ["evaluate_dtw.py"]).stderr = [dtwUsageText] ∧
    (dtw_main "result" ["evaluate_dtw.py"]).exitCode = 2 :=
  ⟨rfl, rfl, rfl⟩

/-- C9 (amended): on a wrong argument count, the single-recording heuristic
mode emits its error JSON object on standard output and exits with code 1,
while the dual-recording alignment mode emits an argparse usage message on
standard error (nothing on standard output) and exits with code 2; both
exit codes are non-zero. -/
theorem C9_wrong_arg_count (resultJson : String) (argv : List String)
    (h : argv.length ≠ 3) :
    advanced_main resultJson argv = ⟨[advancedUsageErrorJson], [], 1⟩ ∧
    dtw_main resultJson argv = ⟨[], [dtwUsageText], 2⟩ ∧
    (advanced_main resultJson argv).exitCode ≠ 0 ∧
    (dtw_main resultJson argv).exitCode ≠ 0 := by
  refine ⟨?_, ?_, ?_, ?_⟩ <;> simp [advanced_main, dtw_main, h]

/-- C9 witness: a concrete invocation with only the script name. -/
theorem C9_witness :
    (["prog"] : List String).length ≠ 3 ∧
    (advanced_main "result" ["prog"] = ⟨[advancedUsageErrorJson], [], 1⟩ ∧
     dtw_main "result" ["prog"] = ⟨[], [dtwUsageText], 2⟩ ∧
     (advanced_main "result" ["prog"]).exitCode ≠ 0 ∧
     (dtw_main "result" ["prog"]).exitCode ≠ 0) :=
  ⟨by decide, C9_wrong_arg_count "result" ["prog"] (by decide)⟩

/-- The Euclidean local distance is nonnegative. -/
theorem euclid_nonneg (a b : Fin 13 → ℝ) : 0 ≤ euclid a b :=
  Real.sqrt_nonneg _

/-- The Euclidean local distance of a frame to itself is zero. -/
theorem euclid_self (a : Fin 13 → ℝ) : euclid a a = 0 := by
  simp [euclid]

/-- Every cumulative DTW cost is nonnegative. -/
theorem dtwCum_nonneg (x y : ℕ → Fin 13 → ℝ) : ∀ i j, 0 ≤ dtwCum x y i j := by
  intro i
  induction i with
  | zero =>
    intro j
    induction j with
    | zero =>
      rw [dtwCum]
      exact euclid_nonneg _ _
    | succ j ihj =>
      rw [dtwCum]
      exact add_nonneg ihj (euclid_nonneg _ _)
  | succ i ih =>
    intro j
    induction j with
    | zero =>
      rw [dtwCum]
      exact add_nonneg (ih 0) (euclid_nonneg _ _)
    | succ j ihj =>
      rw [dtwCum]
      refine le_min (add_nonneg (ih j) ?_)
        (le_min (add_nonneg (ih (j + 1)) (euclid_nonneg _ _))
          (add_nonneg ihj (euclid_nonneg _ _)))
      have := euclid_nonneg (x (i + 1)) (y (j + 1))
      linarith

/-- Along the diagonal of identical sequences the cumulative DTW cost is
zero: the all-diagonal path only accrues zero local distances, and no path
can do better since all costs are nonnegative. -/
theorem dtwCum_diag_self (x : ℕ → Fin 13 → ℝ) : ∀ i, dtwCum x x i i = 0 := by
  intro i
  induction i with
  | zero => simpa [dtwCum] using euclid_self (x 0)
  | succ i ih =>
    rw [dtwCum, euclid_self, ih]
    rw [mul_zero, add_zero, add_zero, add_zero]
    exact min_eq_left
      (le_min (dtwCum_nonneg x x i (i + 1)) (dtwCum_nonneg x x (i + 1) i))

/-- C5: running the Reference Aligner with the same feature sequence as
both candidate and reference yields alignment distance 0 and similarity
score 100 (`100 * exp(-k * 0) = 100`, unchanged by rounding to two
decimals). -/
theorem C5_identical_alignment (x : ℕ → Fin 13 → ℝ) (n : ℕ) :
    (dtw_analyze x x n n).dtwDistance = 0 ∧
    (dtw_analyze x x n n).dtwScore = 100 := by
  have hd : dtw_distance x x n n = 0 := dtwCum_diag_self x (n - 1)
  constructor
  · exact hd
  · show round2 (100 * Real.exp (-dtwDecayK * dtw_distance x x n n)) = 100
    rw [hd, mul_zero, Real.exp_zero, mul_one, round2]
    norm_num

end




